import Mathlib

/-!
Verification development for the TERRA construction-geospatial-analytics
copilot backend.  The Python sources under `copilot/backend` are shallowly
embedded: pure computations become Lean functions over `List Char`, `String`,
`ℚ` and explicit record types; external effects (Snowflake queries, the
optimizer, the HTTP stream) become explicit input data.

Components embedded here:
* `AgentOrchestrator._classify_intent` and `process_message`
  (`agents/orchestrator.py`),
* `WatchdogAgent.process`, `_get_optimal_thresholds`,
  `_is_ghost_cycle_rule_based`, `_is_choke_point_rule_based`,
  `_estimate_fuel_waste` (`agents/watchdog.py`),
* `CortexAgentClient.run_agent_stream` and `_parse_sse_event`
  (`services/cortex_agent_client.py`),
* `SnowflakeServiceSPCS._execute_query_snowpark` and `_reconnect_if_needed`
  (`services/snowflake_service_spcs.py`).
-/

namespace Terra

/-! ## Character-list string utilities

Python string operations are modelled over `List Char` so that every
definition reduces in the kernel.  Strings enter through `String.data`.
-/

/-- Whitespace test matching the characters removed by Python `str.strip()`. -/
def isPyWhitespace (c : Char) : Bool :=
  c = ' ' || c = '\t' || c = '\n' || c = '\r' || c = '\x0b' || c = '\x0c'

/-- Python `str.strip()`: drop leading and trailing whitespace. -/
def stripChars (l : List Char) : List Char :=
  ((l.dropWhile isPyWhitespace).reverse.dropWhile isPyWhitespace).reverse

/-- Python `sub in s` substring test. -/
def containsSeq (pat : List Char) : List Char → Bool
  | [] => pat.isEmpty
  | c :: cs => pat.isPrefixOf (c :: cs) || containsSeq pat cs

/-- Python `str.lower()` restricted to ASCII, as used on the inbound chat
messages and error strings in this backend. -/
def lowerChars (l : List Char) : List Char :=
  l.map Char.toLower

/-- Split on a single newline character, like Python `s.split("\n")`. -/
def splitLines : List Char → List (List Char)
  | [] => [[]]
  | '\n' :: cs => [] :: splitLines cs
  | c :: cs =>
    match splitLines cs with
    | [] => [[c]]
    | g :: gs => (c :: g) :: gs

/-- Split on the blank-line frame delimiter, like Python `s.split("\n\n")`
applied left to right (non-overlapping, leftmost first). -/
def splitOnBlank : List Char → List (List Char)
  | [] => [[]]
  | '\n' :: '\n' :: cs => [] :: splitOnBlank cs
  | c :: cs =>
    match splitOnBlank cs with
    | [] => [[c]]
    | g :: gs => (c :: g) :: gs

/-! ## Intent classification (`AgentOrchestrator._classify_intent`)

The regex patterns used by the classifier only ever use two metacharacters:
`.?` (one optional arbitrary character) and `.*` (an arbitrary gap).  A
pattern is embedded as a list of atoms; `re.search` semantics (match anywhere
in the string) is `searchPat`.
-/

/-- One atom of a classifier pattern: a literal run, `.?`, or `.*`. -/
inductive PatAtom
  | lit (s : List Char)
  | anyOpt
  | gap
deriving DecidableEq

/-- Fuel-indexed matcher: does some prefix of `cs` match `atoms`?  The fuel
only serves to make the recursion structural; `matchPat` supplies enough. -/
def matchPatAux : Nat → List PatAtom → List Char → Bool
  | 0, _, _ => false
  | _ + 1, [], _ => true
  | f + 1, .lit s :: rest, cs =>
    s.isPrefixOf cs && matchPatAux f rest (cs.drop s.length)
  | f + 1, .anyOpt :: rest, cs =>
    matchPatAux f rest cs ||
      (match cs with
       | [] => false
       | _ :: cs' => matchPatAux f rest cs')
  | f + 1, .gap :: rest, cs =>
    matchPatAux f rest cs ||
      (match cs with
       | [] => false
       | _ :: cs' => matchPatAux f (.gap :: rest) cs')

/-- Does a match of `atoms` start at position 0 of `cs`? -/
def matchPat (atoms : List PatAtom) (cs : List Char) : Bool :=
  matchPatAux (cs.length + atoms.length + 1) atoms cs

/-- Python `re.search`: does `atoms` match starting at any position? -/
def searchPat (atoms : List PatAtom) : List Char → Bool
  | [] => matchPat atoms []
  | c :: cs => matchPat atoms (c :: cs) || searchPat atoms cs

/-- Shorthand: build a literal atom from a string. -/
def patLit (s : String) : PatAtom := .lit s.data

/-- Ghost-cycle / fuel patterns of `_classify_intent`. -/
def ghostPatterns : List (List PatAtom) :=
  [[patLit "ghost", .anyOpt, patLit "cycle"],
   [patLit "fuel", .anyOpt, patLit "waste"],
   [patLit "idle"],
   [patLit "inefficien"],
   [patLit "burning fuel"],
   [patLit "not working"]]

/-- Route / traffic patterns of `_classify_intent`. -/
def routePatterns : List (List PatAtom) :=
  [[patLit "route"],
   [patLit "traffic"],
   [patLit "choke", .anyOpt, patLit "point"],
   [patLit "congestion"],
   [patLit "bottleneck"],
   [patLit "divert"],
   [patLit "alternate"]]

/-- Cycle-time patterns of `_classify_intent`. -/
def cyclePatterns : List (List PatAtom) :=
  [[patLit "cycle", .anyOpt, patLit "time"],
   [patLit "how long"],
   [patLit "predict", .gap, patLit "time"],
   [patLit "estimate", .gap, patLit "time"]]

/-- ML-explanation patterns of `_classify_intent`. -/
def mlPatterns : List (List PatAtom) :=
  [[patLit "why", .gap, patLit "detect"],
   [patLit "explain", .gap, patLit "model"],
   [patLit "feature", .gap, patLit "import"],
   [patLit "shap"],
   [patLit "what", .gap, patLit "predict"]]

/-- Analytical patterns of `_classify_intent`. -/
def analyticalPatterns : List (List PatAtom) :=
  [[patLit "how many"],
   [patLit "total"],
   [patLit "count"],
   [patLit "average"],
   [patLit "list"],
   [patLit "show me", .gap, patLit "data"],
   [patLit "statistics"]]

/-- Search / history patterns of `_classify_intent`. -/
def searchPatterns : List (List PatAtom) :=
  [[patLit "search"],
   [patLit "find"],
   [patLit "safety"],
   [patLit "geotechnical"],
   [patLit "document"],
   [patLit "procedure"],
   [patLit "history"]]

/-- Status patterns of `_classify_intent`. -/
def statusPatterns : List (List PatAtom) :=
  [[patLit "status"],
   [patLit "current"],
   [patLit "right now"],
   [patLit "fleet"],
   [patLit "equipment"]]

/-- Does any pattern of the group match the (already lowercased) message? -/
def groupMatches (pats : List (List PatAtom)) (m : List Char) : Bool :=
  pats.any (fun p => searchPat p m)

/-- Embedding of `AgentOrchestrator._classify_intent`: lowercase the message,
then scan the pattern groups in source order, returning on the first group
with a matching pattern. -/
def classifyIntent (message : String) : String :=
  let m := lowerChars message.data
  if groupMatches ghostPatterns m then "ghost_cycle"
  else if groupMatches routePatterns m then "route"
  else if groupMatches cyclePatterns m then "cycle_time"
  else if groupMatches mlPatterns m then "ml_explain"
  else if groupMatches analyticalPatterns m then "analytical"
  else if groupMatches searchPatterns m then "search"
  else if groupMatches statusPatterns m then "status"
  else "general"

example : classifyIntent "Show me Ghost Cycle alerts" = "ghost_cycle" := by decide
example : classifyIntent "Any choke points on my route?" = "route" := by decide
example : classifyIntent "hello" = "general" := by decide
example : classifyIntent "" = "general" := by decide
example : classifyIntent "What's the average cycle time?" = "cycle_time" := by decide

/-! ## Watchdog detection engine (`WatchdogAgent`)

Feed rows coming back from Snowflake are dictionaries; a key may be absent,
which Python's `dict.get(key, default)` papers over.  Absent keys are
modelled with `Option`, and each `.get` with its source default.
Probabilities and telemetry values are `ℚ`.
-/

/-- One row of `CONSTRUCTION_GEO_DB.ML.GHOST_CYCLE_PREDICTIONS` as consumed
by `WatchdogAgent.process`. -/
structure GhostPred where
  equipmentId : Option String := none
  ghostProbability : Option ℚ := none
  gpsSpeedMph : Option ℚ := none
  engineLoadPct : Option ℚ := none
  estimatedFuelWasteGal : Option ℚ := none
deriving DecidableEq

/-- One row of `CONSTRUCTION_GEO_DB.ML.CHOKE_POINT_PREDICTIONS` as consumed
by `WatchdogAgent.process`. -/
structure ChokePred where
  chokeProbability : Option ℚ := none
  predictedSeverity : Option String := none
  zoneName : Option String := none
  zoneLat : Option ℚ := none
  zoneLng : Option ℚ := none
  predictedTrucksAffected : Option ℚ := none
  predictedWaitTimeMin : Option ℚ := none
  predictedOnsetTime : Option String := none
  recommendedAction : Option String := none
deriving DecidableEq

/-- One telemetry record from `context["equipment_data"]`. -/
structure EquipRecord where
  equipmentId : Option String := none
  speedMph : Option ℚ := none
  engineLoadPct : Option ℚ := none
  fuelRateGph : Option ℚ := none
  durationMinutes : Option ℚ := none
deriving DecidableEq

/-- One zone record from `context["zone_metrics"]`. -/
structure ZoneRecord where
  zoneName : Option String := none
  zoneLat : Option ℚ := none
  zoneLng : Option ℚ := none
  avgSpeed : Option ℚ := none
  equipmentCount : Option ℚ := none
deriving DecidableEq

/-- The threshold dictionary of `WatchdogAgent`.  `self.default_thresholds`
always carries these four keys, and `_get_optimal_thresholds` only ever
overrides the two probability entries, so a fixed record is faithful. -/
structure ThresholdSet where
  ghostCycleProbability : ℚ
  chokePointProbability : ℚ
  ghostCycleSpeedMin : ℚ
  ghostCycleLoadMax : ℚ
deriving DecidableEq

/-- The hard-coded `self.default_thresholds` of `WatchdogAgent.__init__`. -/
def defaultThresholds : ThresholdSet :=
  { ghostCycleProbability := 0.50
  , chokePointProbability := 0.60
  , ghostCycleSpeedMin := 2.0
  , ghostCycleLoadMax := 30.0 }

/-- One row of the optimizer view `ML.V_OPTIMAL_THRESHOLDS` as consumed by
`_get_optimal_thresholds`. -/
structure OptRow where
  modelName : Option String := none
  optimalThreshold : Option ℚ := none
deriving DecidableEq

/-- Outcome of the external optimizer lookup in `_get_optimal_thresholds`:
the Snowflake service may be unavailable (`self.sf` is `None`), the call may
raise, or it may return a row list (possibly empty). -/
inductive OptimizerOutcome
  | noService
  | failure
  | success (rows : List OptRow)
deriving DecidableEq

/-- Loop body of the `for opt in optimal` loop of `_get_optimal_thresholds`:
a model name containing `GHOST` (re)sets the ghost override, else one
containing `CHOKE` (re)sets the choke override. -/
def collectStep (ov : Option ℚ × Option ℚ) (r : OptRow) : Option ℚ × Option ℚ :=
  if containsSeq "GHOST".data (r.modelName.getD "").data then
    (some (r.optimalThreshold.getD 0.5), ov.2)
  else if containsSeq "CHOKE".data (r.modelName.getD "").data then
    (ov.1, some (r.optimalThreshold.getD 0.6))
  else ov

/-- The override dictionary collected by `_get_optimal_thresholds` (fields
for the at most two keys it can hold). -/
def collectOverrides (rows : List OptRow) : Option ℚ × Option ℚ :=
  rows.foldl collectStep (none, none)

/-- Embedding of `WatchdogAgent._get_optimal_thresholds`: on any failure or
when the collected override dictionary is empty, return the defaults;
otherwise merge the overrides over the defaults (`{**defaults, **thresholds}`). -/
def resolveThresholds (o : OptimizerOutcome) : ThresholdSet :=
  match o with
  | .noService => defaultThresholds
  | .failure => defaultThresholds
  | .success rows =>
    if (collectOverrides rows).1.isSome || (collectOverrides rows).2.isSome then
      { defaultThresholds with
        ghostCycleProbability :=
          (collectOverrides rows).1.getD defaultThresholds.ghostCycleProbability
        chokePointProbability :=
          (collectOverrides rows).2.getD defaultThresholds.chokePointProbability }
    else defaultThresholds

/-- An alert dictionary built by `WatchdogAgent.process`.  Keys that only one
of the construction sites sets are `Option` (absent key = `none`); the
human-readable `message` string is presentation-only and not modelled. -/
structure Alert where
  kind : String
  severity : String
  equipmentId : Option String := none
  zoneName : Option String := none
  confidence : Option ℚ := none
  estimatedFuelWasteGal : Option ℚ := none
  estimatedCostUsd : Option ℚ := none
  predictedWaitTime : Option ℚ := none
  recommendation : String := ""
  model : String
  thresholdUsed : Option ℚ := none
deriving DecidableEq

/-- The ghost-cycle alert built from one surviving ML prediction row
(primary path of `WatchdogAgent.process`). -/
def mkGhostMlAlert (thresholds : ThresholdSet) (p : GhostPred) : Alert :=
  { kind := "GHOST_CYCLE"
  , severity := if p.ghostProbability.getD 0 < 0.7 then "WARNING" else "CRITICAL"
  , equipmentId := p.equipmentId
  , confidence := some (p.ghostProbability.getD 0)
  , estimatedFuelWasteGal := some (p.estimatedFuelWasteGal.getD 0)
  , estimatedCostUsd := some (p.estimatedFuelWasteGal.getD 0 * 3.80)
  , recommendation := "Verify equipment is performing productive work or reassign"
  , model := "GHOST_CYCLE_DETECTOR"
  , thresholdUsed := some thresholds.ghostCycleProbability }

/-- Embedding of `WatchdogAgent._is_ghost_cycle_rule_based`; note the rule
uses the hard-coded `self.default_thresholds`, not the resolved set. -/
def isGhostCycleRuleBased (e : EquipRecord) : Bool :=
  decide (e.speedMph.getD 0 > defaultThresholds.ghostCycleSpeedMin) &&
  decide (e.engineLoadPct.getD 100 < defaultThresholds.ghostCycleLoadMax)

/-- Embedding of `WatchdogAgent._estimate_fuel_waste`. -/
def estimateFuelWaste (e : EquipRecord) : ℚ :=
  e.fuelRateGph.getD 3.0 * 0.4 * (e.durationMinutes.getD 10 / 60)

/-- The ghost-cycle alert built from one qualifying telemetry record
(rule-based fallback path of `WatchdogAgent.process`). -/
def mkGhostRuleAlert (e : EquipRecord) : Alert :=
  { kind := "GHOST_CYCLE"
  , severity := "WARNING"
  , equipmentId := e.equipmentId
  , confidence := none
  , estimatedFuelWasteGal := some (estimateFuelWaste e)
  , estimatedCostUsd := some (estimateFuelWaste e * 3.80)
  , recommendation := "Verify equipment is performing productive work"
  , model := "RULE_BASED_FALLBACK" }

/-- The choke-point alert built from one surviving ML prediction row. -/
def mkChokeMlAlert (thresholds : ThresholdSet) (p : ChokePred) : Alert :=
  { kind := "CHOKE_POINT"
  , severity := p.predictedSeverity.getD "MEDIUM"
  , zoneName := p.zoneName
  , confidence := some (p.chokeProbability.getD 0)
  , predictedWaitTime := some (p.predictedWaitTimeMin.getD 0)
  , recommendation :=
      p.recommendedAction.getD "Divert incoming trucks to alternate route"
  , model := "CHOKE_POINT_PREDICTOR"
  , thresholdUsed := some thresholds.chokePointProbability }

/-- Embedding of `WatchdogAgent._is_choke_point_rule_based`. -/
def isChokePointRuleBased (z : ZoneRecord) : Bool :=
  decide (z.avgSpeed.getD 100 < 5.0) && decide (z.equipmentCount.getD 0 > 10)

/-- The choke-point alert built from one qualifying zone record. -/
def mkChokeRuleAlert (z : ZoneRecord) : Alert :=
  { kind := "CHOKE_POINT"
  , severity := "ALERT"
  , zoneName := z.zoneName
  , confidence := none
  , predictedWaitTime := some (z.equipmentCount.getD 0 * 2.5)
  , recommendation := "Divert incoming trucks to alternate route"
  , model := "RULE_BASED_FALLBACK" }

/-- The ghost records kept by the primary path (`ghost_cycles` list):
predictions whose probability clears the resolved threshold. -/
def ghostSurvivors (thresholds : ThresholdSet) (preds : List GhostPred) :
    List GhostPred :=
  preds.filter (fun p =>
    decide (p.ghostProbability.getD 0 ≥ thresholds.ghostCycleProbability))

/-- The choke records kept by the primary path. -/
def chokeSurvivors (thresholds : ThresholdSet) (preds : List ChokePred) :
    List ChokePred :=
  preds.filter (fun p =>
    decide (p.chokeProbability.getD 0 ≥ thresholds.chokePointProbability))

/-- A record stored in the returned `ghost_cycles` list: an ML prediction on
the primary path, a telemetry record on the fallback path. -/
inductive GhostHit
  | ml (p : GhostPred)
  | rule (e : EquipRecord)
deriving DecidableEq

/-- A record stored in the returned `choke_points` list. -/
inductive ChokeHit
  | ml (p : ChokePred)
  | rule (z : ZoneRecord)
deriving DecidableEq

/-- The dictionary returned by `WatchdogAgent.process` (the natural-language
`summary` string is presentation-only and not modelled). -/
structure WatchdogResult where
  alerts : List Alert
  ghostCycles : List GhostHit
  chokePoints : List ChokeHit
  status : String
  thresholdsUsed : ThresholdSet
  totalFuelWasteGal : ℚ
  totalCostUsd : ℚ
deriving DecidableEq

/-- Ghost-cycle branch of `WatchdogAgent.process`: the primary ML path runs
exactly when the prediction feed is non-empty (Python list truthiness),
otherwise the rule-based fallback scans `equipment_data`. -/
def ghostBranch (thresholds : ThresholdSet) (mlGhost : List GhostPred)
    (equipmentData : List EquipRecord) : List GhostHit × List Alert :=
  if mlGhost.isEmpty then
    let hits := equipmentData.filter isGhostCycleRuleBased
    (hits.map .rule, hits.map mkGhostRuleAlert)
  else
    let hits := ghostSurvivors thresholds mlGhost
    (hits.map .ml, hits.map (mkGhostMlAlert thresholds))

/-- Choke-point branch of `WatchdogAgent.process`. -/
def chokeBranch (thresholds : ThresholdSet) (mlChoke : List ChokePred)
    (zoneMetrics : List ZoneRecord) : List ChokeHit × List Alert :=
  if mlChoke.isEmpty then
    let hits := zoneMetrics.filter isChokePointRuleBased
    (hits.map .rule, hits.map mkChokeRuleAlert)
  else
    let hits := chokeSurvivors thresholds mlChoke
    (hits.map .ml, hits.map (mkChokeMlAlert thresholds))

/-- Total estimated fuel waste over the ghost-cycle alerts
(`a.get("estimated_fuel_waste_gal", 0)` summed over `type == "GHOST_CYCLE"`). -/
def totalFuelWaste (alerts : List Alert) : ℚ :=
  (alerts.filter (fun a => a.kind = "GHOST_CYCLE")).foldl
    (fun acc a => acc + a.estimatedFuelWasteGal.getD 0) 0

/-- Overall status of a pass: `CRITICAL` if any alert is critical, `ALERT`
if any alert exists, else `NORMAL`. -/
def overallStatus (alerts : List Alert) : String :=
  if alerts.any (fun a => a.severity = "CRITICAL") then "CRITICAL"
  else if alerts.isEmpty then "NORMAL" else "ALERT"

/-- Embedding of `WatchdogAgent.process`.  The external inputs (optimizer
outcome, the two ML prediction feeds — already reduced to `[]` when their
queries fail — and the context's telemetry and zone lists) are explicit
arguments. -/
def watchdogProcess (optimizer : OptimizerOutcome) (mlGhost : List GhostPred)
    (mlChoke : List ChokePred) (equipmentData : List EquipRecord)
    (zoneMetrics : List ZoneRecord) : WatchdogResult :=
  let thresholds := resolveThresholds optimizer
  let gb := ghostBranch thresholds mlGhost equipmentData
  let cb := chokeBranch thresholds mlChoke zoneMetrics
  let alerts := gb.2 ++ cb.2
  let waste := totalFuelWaste alerts
  { alerts := alerts
  , ghostCycles := gb.1
  , chokePoints := cb.1
  , status := overallStatus alerts
  , thresholdsUsed := thresholds
  , totalFuelWasteGal := waste
  , totalCostUsd := waste * 3.80 }

/-! ## Orchestrator (`AgentOrchestrator.process_message`)

The orchestrator's mutable `self.context` dictionary is the record
`ConvContext`.  The seven `_handle_*` coroutines perform external queries and
produce a response/sources/data triple; they read the conversation context
but never assign to it, so they are modelled as pure functions supplied by a
`HandlerWorld` (parametrised by the opaque type `δ` of their `data`
payloads).  `processMessage` returns the updated context together with the
response dictionary.
-/

/-- The orchestrator's `self.context` dictionary. -/
structure ConvContext where
  siteId : String
  equipmentId : Option String
  currentHour : ℕ
deriving DecidableEq

/-- The initial context set in `AgentOrchestrator.__init__`. -/
def initialContext : ConvContext :=
  { siteId := "ALPHA", equipmentId := none, currentHour := 10 }

/-- The response/sources/data triple returned by each `_handle_*` coroutine. -/
structure RoleResult (δ : Type) where
  response : String
  sources : List String
  data : δ

/-- The behaviour of the seven handlers: each maps the message and the
conversation context (read after the site update) to its `RoleResult`. -/
structure HandlerWorld (δ : Type) where
  handleAnalytical : String → ConvContext → RoleResult δ
  handleGhostCycle : String → ConvContext → RoleResult δ
  handleRouting : String → ConvContext → RoleResult δ
  handleSearch : String → ConvContext → RoleResult δ
  handleStatus : String → ConvContext → RoleResult δ
  handleCycleTime : String → ConvContext → RoleResult δ
  handleMlExplanation : String → ConvContext → RoleResult δ
  handleGeneral : String → ConvContext → RoleResult δ

/-- The dictionary returned by `process_message`: joined response text, the
accumulated sources, the intent-keyed context-data entries, and the resolved
intent. -/
structure TurnResult (δ : Type) where
  response : String
  sources : List String
  contextData : List (String × δ)
  intent : String

/-- Dispatch step of `process_message` after classification: pick the handler
for the intent, and record response text, sources (the status and cycle-time
branches do not extend `sources`) and the intent-keyed data entry. -/
def dispatchIntent {δ : Type} (w : HandlerWorld δ) (intent message : String)
    (ctx : ConvContext) : String × List String × List (String × δ) :=
  if intent = "analytical" then
    let r := w.handleAnalytical message ctx
    (r.response, r.sources, [("query_results", r.data)])
  else if intent ∈ ["ghost_cycle", "fuel", "efficiency"] then
    let r := w.handleGhostCycle message ctx
    (r.response, r.sources, [("ghost_cycles", r.data)])
  else if intent ∈ ["route", "traffic", "choke", "congestion"] then
    let r := w.handleRouting message ctx
    (r.response, r.sources, [("route_recommendations", r.data)])
  else if intent ∈ ["search", "history", "safety", "document"] then
    let r := w.handleSearch message ctx
    (r.response, r.sources, [("document_results", r.data)])
  else if intent ∈ ["status", "current", "monitor", "fleet"] then
    let r := w.handleStatus message ctx
    (r.response, [], [("fleet_status", r.data)])
  else if intent = "cycle_time" then
    let r := w.handleCycleTime message ctx
    (r.response, [], [("cycle_analysis", r.data)])
  else if intent = "ml_explain" then
    let r := w.handleMlExplanation message ctx
    (r.response, r.sources, [])
  else
    let r := w.handleGeneral message ctx
    (r.response, r.sources, [])

/-- Embedding of `AgentOrchestrator.process_message`.  A supplied `site_id`
mutates `self.context["site_id"]` before classification (Python truthiness:
an empty string is falsy and does not mutate); the handlers then run against
the updated context, and the context retains the mutation afterwards. -/
def processMessage {δ : Type} (w : HandlerWorld δ) (ctx : ConvContext)
    (message : String) (siteId : Option String) :
    ConvContext × TurnResult δ :=
  let ctx' :=
    match siteId with
    | some s => if s = "" then ctx else { ctx with siteId := s }
    | none => ctx
  let intent := classifyIntent message
  let d := dispatchIntent w intent message ctx'
  (ctx',
    { response := d.1
    , sources := d.2.1
    , contextData := d.2.2
    , intent := intent })

/-! ## JSON values

The SSE parser feeds its `data:` payloads through `json.loads`.  JSON values
are modelled by `Json`; `jsonParse` is a fuel-indexed recursive-descent
parser over `List Char` (fuel only makes the recursion structural; the
initial fuel is always sufficient for the input length).  Numbers are
modelled as `ℚ`, which conflates Python's `int` and `float` results — none
of the modelled behaviour distinguishes them.
-/

inductive Json
  | null
  | bool (b : Bool)
  | num (q : ℚ)
  | str (s : String)
  | arr (elems : List Json)
  | obj (fields : List (String × Json))

/-- Dictionary lookup, `d.get(k)`; for duplicate keys `json.loads` keeps the
last occurrence, so the last binding wins. -/
def Json.get (j : Json) (k : String) : Option Json :=
  match j with
  | .obj kvs => ((kvs.filter (fun kv => kv.1 == k)).getLast?).map (fun kv => kv.2)
  | _ => none

/-- Dictionary lookup with default, `d.get(k, default)`. -/
def Json.getD (j : Json) (k : String) (d : Json) : Json :=
  (j.get k).getD d

/-- Python `isinstance(x, dict)`. -/
def Json.isObj : Json → Bool
  | .obj _ => true
  | _ => false

/-- Python `isinstance(x, list)`. -/
def Json.isArr : Json → Bool
  | .arr _ => true
  | _ => false

/-- Python truthiness of a decoded JSON value. -/
def pyTruthy : Json → Bool
  | .null => false
  | .bool b => b
  | .num q => decide (q ≠ 0)
  | .str s => !(s.data.isEmpty)
  | .arr elems => !elems.isEmpty
  | .obj kvs => !kvs.isEmpty

/-- Python `a or b` on decoded JSON values. -/
def pyOr (a b : Json) : Json :=
  if pyTruthy a then a else b

/-- Python `repr` of a decoded JSON value, approximated: only reached through
`str()` of a non-scalar, which no modelled scenario exercises exactly. -/
def pyRepr : Json → String
  | .null => "None"
  | .bool b => if b then "True" else "False"
  | .num q => if q.den = 1 then toString q.num else toString q.num ++ "/" ++ toString q.den
  | .str s => "'" ++ s ++ "'"
  | .arr _ => "[...]"
  | .obj _ => "\x7b...\x7d"

/-- Python `str` of a decoded JSON value.  Exact on `None`, booleans,
integers and strings — the only shapes the modelled code paths render. -/
def pyStr : Json → String
  | .null => "None"
  | .bool b => if b then "True" else "False"
  | .num q => if q.den = 1 then toString q.num else toString q.num ++ "/" ++ toString q.den
  | .str s => s
  | .arr elems => "[" ++ String.intercalate ", " (elems.map pyRepr) ++ "]"
  | .obj _ => "\x7b...\x7d"

/-- JSON insignificant whitespace. -/
def jsonSkipWs (l : List Char) : List Char :=
  l.dropWhile (fun c => c = ' ' || c = '\t' || c = '\n' || c = '\r')

/-- Numeric value of a digit run. -/
def digitsVal (ds : List Char) : ℕ :=
  ds.foldl (fun a c => a * 10 + (c.toNat - '0'.toNat)) 0

/-- Value of one hex digit, if it is one. -/
def hexDigitVal (c : Char) : Option ℕ :=
  if '0' ≤ c ∧ c ≤ '9' then some (c.toNat - '0'.toNat)
  else if 'a' ≤ c ∧ c ≤ 'f' then some (c.toNat - 'a'.toNat + 10)
  else if 'A' ≤ c ∧ c ≤ 'F' then some (c.toNat - 'A'.toNat + 10)
  else none

/-- Body of a JSON string literal after the opening quote: returns the
decoded characters and the remainder after the closing quote. -/
def parseStringBody : List Char → Option (List Char × List Char)
  | [] => none
  | '"' :: rest => some ([], rest)
  | '\\' :: 'u' :: a :: b :: c :: d :: rest => do
    let va ← hexDigitVal a
    let vb ← hexDigitVal b
    let vc ← hexDigitVal c
    let vd ← hexDigitVal d
    let code := ((va * 16 + vb) * 16 + vc) * 16 + vd
    let (tl, rem) ← parseStringBody rest
    some ((Char.ofNat code) :: tl, rem)
  | '\\' :: e :: rest => do
    let c ←
      if e = '"' then some '"'
      else if e = '\\' then some '\\'
      else if e = '/' then some '/'
      else if e = 'b' then some '\x08'
      else if e = 'f' then some '\x0c'
      else if e = 'n' then some '\n'
      else if e = 'r' then some '\r'
      else if e = 't' then some '\t'
      else none
    let (tl, rem) ← parseStringBody rest
    some (c :: tl, rem)
  | c :: rest => do
    let (tl, rem) ← parseStringBody rest
    some (c :: tl, rem)

/-- A JSON number starting at the head of the input. -/
def parseNumber (cs : List Char) : Option (Json × List Char) :=
  let (neg, cs1) :=
    match cs with
    | '-' :: r => (true, r)
    | _ => (false, cs)
  let ip := cs1.takeWhile Char.isDigit
  let cs2 := cs1.dropWhile Char.isDigit
  if ip.isEmpty then none
  else
    let fracPart : Option (List Char × List Char) :=
      match cs2 with
      | '.' :: r =>
        let fp := r.takeWhile Char.isDigit
        if fp.isEmpty then none else some (fp, r.dropWhile Char.isDigit)
      | _ => some ([], cs2)
    match fracPart with
    | none => none
    | some (fp, cs3) =>
      let expPart : Option (Bool × List Char × List Char) :=
        match cs3 with
        | 'e' :: r | 'E' :: r =>
          let (esign, r1) :=
            match r with
            | '+' :: r' => (false, r')
            | '-' :: r' => (true, r')
            | _ => (false, r)
          let ed := r1.takeWhile Char.isDigit
          if ed.isEmpty then none else some (esign, ed, r1.dropWhile Char.isDigit)
        | _ => some (false, [], cs3)
      match expPart with
      | none => none
      | some (esign, ed, cs4) =>
        let mantissa : ℚ :=
          (digitsVal ip : ℚ) + (digitsVal fp : ℚ) / ((10 : ℚ) ^ fp.length)
        let scaled : ℚ :=
          if ed.isEmpty then mantissa
          else if esign then mantissa / ((10 : ℚ) ^ digitsVal ed)
          else mantissa * ((10 : ℚ) ^ digitsVal ed)
        some (.num (if neg then -scaled else scaled), cs4)

mutual

/-- Fuel-indexed JSON value parser. -/
def parseVal : ℕ → List Char → Option (Json × List Char)
  | 0, _ => none
  | f + 1, cs =>
    match jsonSkipWs cs with
    | [] => none
    | 'n' :: rest =>
      if "ull".data.isPrefixOf rest then some (.null, rest.drop 3) else none
    | 't' :: rest =>
      if "rue".data.isPrefixOf rest then some (.bool true, rest.drop 3) else none
    | 'f' :: rest =>
      if "alse".data.isPrefixOf rest then some (.bool false, rest.drop 4) else none
    | '"' :: rest =>
      match parseStringBody rest with
      | some (content, rem) => some (.str ⟨content⟩, rem)
      | none => none
    | '\x7b' :: rest =>
      match jsonSkipWs rest with
      | '\x7d' :: rem => some (.obj [], rem)
      | other => parseObjTail f other
    | '[' :: rest =>
      match jsonSkipWs rest with
      | ']' :: rem => some (.arr [], rem)
      | other => parseArrTail f other
    | c :: rest =>
      if c = '-' ∨ c.isDigit then parseNumber (c :: rest) else none

/-- Elements of a non-empty JSON array, positioned at the first element. -/
def parseArrTail : ℕ → List Char → Option (Json × List Char)
  | 0, _ => none
  | f + 1, cs =>
    match parseVal f cs with
    | none => none
    | some (j, rest) =>
      match jsonSkipWs rest with
      | ',' :: r2 =>
        match parseArrTail f r2 with
        | some (.arr tl, rem) => some (.arr (j :: tl), rem)
        | _ => none
      | ']' :: r2 => some (.arr [j], r2)
      | _ => none

/-- Members of a non-empty JSON object, positioned at the first key. -/
def parseObjTail : ℕ → List Char → Option (Json × List Char)
  | 0, _ => none
  | f + 1, cs =>
    match jsonSkipWs cs with
    | '"' :: rest =>
      match parseStringBody rest with
      | none => none
      | some (key, afterKey) =>
        match jsonSkipWs afterKey with
        | ':' :: afterColon =>
          match parseVal f afterColon with
          | none => none
          | some (v, rest2) =>
            match jsonSkipWs rest2 with
            | ',' :: r2 =>
              match parseObjTail f r2 with
              | some (.obj tl, rem) => some (.obj ((⟨key⟩, v) :: tl), rem)
              | _ => none
            | '\x7d' :: r2 => some (.obj [(⟨key⟩, v)], r2)
            | _ => none
        | _ => none
    | _ => none

end

/-- Embedding of `json.loads`: parse one JSON value spanning the whole
input (up to surrounding whitespace). -/
def jsonParse (cs : List Char) : Option Json :=
  match parseVal (2 * cs.length + 4) cs with
  | some (j, rest) => if (jsonSkipWs rest).isEmpty then some j else none
  | none => none

example : jsonParse "\"abc\"".data = some (.str "abc") := by rfl
example :
    jsonParse "\x7b\"text\": \"abc\"\x7d".data =
      some (.obj [("text", .str "abc")]) := by rfl
example :
    jsonParse "[\"a\", \"b\"]".data = some (.arr [.str "a", .str "b"]) := by rfl
example : jsonParse "nope".data = none := by rfl
example : jsonParse "true".data = some (.bool true) := by rfl

/-! ## SSE event parsing (`CortexAgentClient._parse_sse_event`)

A frame is a raw text block; `_parse_sse_event` scans its lines for
`event:` / `data:` headers, decodes the data payload, and dispatches on the
event-type tag.  Any exception inside the method is caught and turned into
`None`, so exceptional Python paths are modelled as `none` directly.
-/

/-- A stream event as yielded to the consumer: the typed dictionaries built
by `_parse_sse_event`, plus the `error` and `done` dictionaries yielded by
`run_agent_stream` itself. -/
inductive SSEvent
  | text (content : Json)
  | thinking (title : String) (content : Json)
  | statusEv (title : Json) (statusVal : Json)
  | toolStatus (title : Json) (statusVal : Json)
  | toolResult (sqlF : Option Json) (errF : Option Json) (dataF : Option Json)
      (contentF : Option Json)
  | chart (spec : Json)
  | error (content : String) (details : Option String)
  | done

/-- The `status_titles` lookup table of the `response.status` branch. -/
def statusTitles (s : String) : Option String :=
  if s = "planning" then some "Planning analysis approach"
  else if s = "reasoning_agent_start" then some "Starting analysis"
  else if s = "reasoning_agent_stop" then some "Analysis complete"
  else if s = "reevaluating_plan" then some "Refining approach"
  else if s = "streaming_analyst_results" then some "Running SQL query"
  else none

/-- Accumulated fields of the `response.tool_result` branch. -/
structure ToolAcc where
  sqlF : Option Json := none
  errF : Option Json := none
  dataF : Option Json := none
  contentF : Option Json := none

/-- Python `key in container` for the shapes `json_data` can take: key test
on a dict, membership on a list, substring on a string; `none` models the
`TypeError` any other shape raises. -/
def pyContains (key : String) : Json → Option Bool
  | .obj kvs => some (kvs.any (fun kv => kv.1 == key))
  | .arr elems => some (elems.any (fun e =>
      match e with
      | .str s => s == key
      | _ => false))
  | .str s => some (containsSeq key.data s.data)
  | _ => none

/-- Processing of the nested `item["json"]` payload: set the `sql`, `error`
and `data` fields that are present.  `none` models an exception (a `in` test
on a non-container, indexing a non-dict, or `.get` on a non-dict error
value), which aborts the whole parse. -/
def toolJsonStep (a : ToolAcc) (jd : Json) : Option ToolAcc := do
  let hasSql ← pyContains "sql" jd
  let a1 ←
    if hasSql then
      match jd.get "sql" with
      | some v => some { a with sqlF := some v }
      | none => none
    else some a
  let hasErr ← pyContains "error" jd
  let a2 ←
    if hasErr then
      match jd.get "error" with
      | some (.obj kvs) =>
        some { a1 with
          errF := some (((Json.obj kvs).get "message").getD
            (.str (pyStr (.obj kvs)))) }
      | _ => none
    else some a1
  let hasData ← pyContains "data" jd
  if hasData then
    match jd.get "data" with
    | some v => some { a2 with dataF := some v }
    | none => none
  else some a2

/-- One iteration of the `for item in content` loop of the
`response.tool_result` branch. -/
def toolItemStep (acc : Option ToolAcc) (item : Json) : Option ToolAcc := do
  let a ← acc
  match item with
  | .obj kvs =>
    let it := Json.obj kvs
    let a1 ←
      match it.get "json" with
      | some jd => toolJsonStep a jd
      | none => some a
    match it.get "text" with
    | some v => some { a1 with contentF := some v }
    | none => some a1
  | _ => some a

/-- The texts collected by the nested-content fallback of the
`response.content.delta` branch: one `c.get("text", "")` per dict item. -/
def contentDeltaTexts (elems : List Json) : List Json :=
  elems.filterMap (fun c =>
    match c with
    | .obj kvs => some ((Json.obj kvs).getD "text" (.str ""))
    | _ => none)

/-- Python `"".join(texts)`: succeeds only when every element is a string. -/
def joinStrings : List Json → Option String
  | [] => some ""
  | .str s :: rest => (joinStrings rest).map (fun tl => s ++ tl)
  | _ => none

/-- Dispatch of `_parse_sse_event` on the event-type tag, given the decoded
data payload (the code has already returned on a missing payload or a
`[DONE]` sentinel). -/
def dispatchSSE (eventType : Option String) (data : Json) : Option SSEvent :=
  if !data.isObj then some (.text (.str (pyStr data)))
  else if eventType = some "response.output_text.delta" ∨
      eventType = some "response.text.delta" then
    let t := data.getD "text" (.str "")
    if pyTruthy t then some (.text t) else none
  else if eventType = some "response.thinking.delta" then
    let t := data.getD "text" (.str "")
    if pyTruthy t then some (.thinking "Reasoning" t) else none
  else if eventType = some "response.status" then
    let st := data.getD "status" (.str "")
    let msg := data.getD "message" (.str "")
    let title :=
      match st with
      | .str s =>
        match statusTitles s with
        | some t => Json.str t
        | none => pyOr msg st
      | _ => pyOr msg st
    if pyTruthy title then some (.statusEv title st) else none
  else if eventType = some "response.tool_result.status" then
    let st := data.getD "status" (.str "")
    let msg := data.getD "message" (.str "")
    some (.toolStatus (pyOr msg st) st)
  else if eventType = some "response.tool_result" then
    let content := data.getD "content" (.arr [])
    match content with
    | .arr elems =>
      match elems.foldl toolItemStep (some {}) with
      | none => none
      | some a =>
        if a.sqlF.isSome ∨ a.errF.isSome ∨ a.dataF.isSome ∨ a.contentF.isSome
        then some (.toolResult a.sqlF a.errF a.dataF a.contentF)
        else none
    | _ => none
  else if eventType = some "response.chart" then
    let rawSpec := data.getD "chart_spec" (.obj [])
    let parsedSpec : Option Json :=
      match rawSpec with
      | .str s => jsonParse s.data
      | other => some other
    match parsedSpec with
    | none => none
    | some spec =>
      if pyTruthy spec ∧ spec.isObj then some (.chart spec) else none
  else if eventType = some "response.done" then some .done
  else if eventType = some "response.content.delta" then
    let t := data.getD "text" (.str "")
    if pyTruthy t then some (.text t)
    else
      match data.getD "content" (.arr []) with
      | .arr elems =>
        let texts := contentDeltaTexts elems
        if texts.isEmpty then none
        else
          match joinStrings texts with
          | some s => some (.text (.str s))
          | none => none
      | _ => none
  else none

/-- Result of the line scan of `_parse_sse_event`: either a `[DONE]` data
line returned from inside the loop, or the final event-type and decoded
payload. -/
inductive LineScan
  | doneNow
  | fields (eventType : Option String) (data : Option Json)

/-- The `for line in lines` loop of `_parse_sse_event`: the last `event:`
and `data:` lines win; a `[DONE]` data payload returns immediately; a data
payload that fails to decode becomes the dictionary `{"raw": data_str}`. -/
def scanFrameLines : List (List Char) → Option String → Option Json → LineScan
  | [], et, d => .fields et d
  | line :: rest, et, d =>
    if "event:".data.isPrefixOf line then
      scanFrameLines rest (some ⟨stripChars (line.drop 6)⟩) d
    else if "data:".data.isPrefixOf line then
      let ds := stripChars (line.drop 5)
      if ds = "[DONE]".data then .doneNow
      else
        let dj :=
          match jsonParse ds with
          | some j => j
          | none => Json.obj [("raw", .str ⟨ds⟩)]
        scanFrameLines rest et (some dj)
    else scanFrameLines rest et d

/-- Embedding of `CortexAgentClient._parse_sse_event`. -/
def parseSSEEvent (eventStr : String) : Option SSEvent :=
  match scanFrameLines (splitLines (stripChars eventStr.data)) none none with
  | .doneNow => some .done
  | .fields _ none => none
  | .fields et (some d) => dispatchSSE et d

example :
    parseSSEEvent "event: response.output_text.delta\ndata: \x7b\"text\": \"abc\"\x7d" =
      some (.text (.str "abc")) := by rfl
example : parseSSEEvent "data: [DONE]" = some .done := by rfl
example :
    parseSSEEvent "event: response.weird\ndata: \x7b\"text\": \"abc\"\x7d" =
      none := by rfl
example : parseSSEEvent "event: response.done\ndata: \x7b\x7d" = some .done := by rfl
example : parseSSEEvent "" = none := by rfl

/-! ## Streaming client (`CortexAgentClient.run_agent_stream`)

The generator's interaction with the outside world is an explicit scenario:
either setup fails before the request is sent (missing token or host raises
a `RuntimeError`), or a response arrives with a status code, an error body,
a sequence of text chunks, and optionally an exception after those chunks.
The caller-visible value is the full yielded event sequence.
-/

/-- The outside world seen by one `run_agent_stream` call. -/
structure StreamScenario where
  setupError : Option String
  statusCode : ℕ
  errorBody : String
  chunks : List String
  midStreamError : Option String

/-- The buffer step for one received chunk: append, split on the blank-line
delimiter, emit every complete frame, keep the tail as the new buffer.
This is the `while "\n\n" in buffer` loop in fused form. -/
def consumeChunk (buffer : List Char) (chunk : String) :
    List (List Char) × List Char :=
  let parts := splitOnBlank (buffer ++ chunk.data)
  (parts.dropLast, parts.getLastD [])

/-- All complete frames produced over a chunk sequence, with the final
buffer remainder. -/
def consumeChunks (chunks : List String) : List (List Char) × List Char :=
  chunks.foldl
    (fun acc chunk =>
      let step := consumeChunk acc.2 chunk
      (acc.1 ++ step.1, step.2))
    ([], [])

/-- Events of one parsed frame (a frame parsing to `None` yields nothing). -/
def frameEvents (frame : List Char) : List SSEvent :=
  match parseSSEEvent ⟨frame⟩ with
  | some e => [e]
  | none => []

/-- Embedding of `CortexAgentClient.run_agent_stream`: the full sequence of
events the generator yields in one invocation.

* Setup failure (no SPCS token / no host): the `except` clause yields one
  `error` event carrying the exception text; the generator ends.
* Non-200 status: one `error` event with status and body, then `return`.
* Otherwise the SSE stream is consumed frame-by-frame; if an exception
  interrupts it the events so far are followed by one `error` event;
  otherwise any non-blank buffer remainder is flushed as a final frame and
  a trailing `done` is yielded. -/
def runAgentStream (s : StreamScenario) : List SSEvent :=
  match s.setupError with
  | some msg => [.error msg none]
  | none =>
    if s.statusCode ≠ 200 then
      [.error ("Agent API error: " ++ toString s.statusCode) (some s.errorBody)]
    else
      let consumed := consumeChunks s.chunks
      let events := consumed.1.flatMap frameEvents
      match s.midStreamError with
      | some msg => events ++ [.error msg none]
      | none =>
        let flushed :=
          if (stripChars consumed.2).isEmpty then events
          else events ++ frameEvents consumed.2
        flushed ++ [.done]

example :
    runAgentStream
      { setupError := none, statusCode := 200, errorBody := ""
      , chunks := ["event: response.output_text.delta\ndata: \x7b\"text\": \"hi\"\x7d\n\n",
                   "data: [DONE]\n\n"]
      , midStreamError := none } =
      [.text (.str "hi"), .done, .done] := by rfl

/-! ## Snowflake query retry (`SnowflakeServiceSPCS._execute_query_snowpark`)

The Snowpark/connector call is the oracle `attempt : ℕ → QueryOutcome`
giving the outcome of the n-th execution of the query.  `_reconnect_if_needed`
reconnects exactly when the error message matches the token-expiration test;
whether that reconnect succeeds is the flag `reconnectOk`.  The result pairs
the returned row list with the number of query executions performed.
-/

/-- Outcome of one execution of a query against the backend. -/
inductive QueryOutcome (ρ : Type)
  | ok (rows : List ρ)
  | raised (msg : String)

/-- The token-expiration test of `_reconnect_if_needed`. -/
def isTokenExpiration (msg : String) : Bool :=
  containsSeq "390114".data msg.data ||
    (containsSeq "token".data (lowerChars msg.data) &&
     containsSeq "expired".data (lowerChars msg.data))

/-- Embedding of `_execute_query_snowpark` (entered with `retry=True`).
With no session or connection available it returns `[]` without executing.
A first failure triggers `_reconnect_if_needed`; only a token-expiration
error with a successful reconnect leads to the single `retry=False` call,
whose own failure returns `[]` without any further reconnect attempt. -/
def executeQuerySnowpark {ρ : Type} (hasConn : Bool)
    (attempt : ℕ → QueryOutcome ρ) (reconnectOk : Bool) : List ρ × ℕ :=
  if !hasConn then ([], 0)
  else
    match attempt 0 with
    | .ok rows => (rows, 1)
    | .raised msg =>
      if isTokenExpiration msg && reconnectOk then
        match attempt 1 with
        | .ok rows => (rows, 2)
        | .raised _ => ([], 2)
      else ([], 1)

/-! ## Claim C3: intent-group precedence in classification -/

/-- C3: the pattern groups are applied in the fixed order ghost-cycle →
route → cycle-time → ml-explain → analytical → search → status, the first
group with a matching pattern determines the intent, `general` is returned
when no group matches; in particular a message matching both a ghost-cycle
pattern and a route pattern classifies as `ghost_cycle`, never `route`. -/
theorem classify_group_order (msg : String) :
    (groupMatches ghostPatterns (lowerChars msg.data) = true →
      groupMatches routePatterns (lowerChars msg.data) = true →
      classifyIntent msg = "ghost_cycle" ∧ classifyIntent msg ≠ "route") ∧
    (groupMatches ghostPatterns (lowerChars msg.data) = true →
      classifyIntent msg = "ghost_cycle") ∧
    (groupMatches ghostPatterns (lowerChars msg.data) = false →
      groupMatches routePatterns (lowerChars msg.data) = true →
      classifyIntent msg = "route") ∧
    (groupMatches ghostPatterns (lowerChars msg.data) = false →
      groupMatches routePatterns (lowerChars msg.data) = false →
      groupMatches cyclePatterns (lowerChars msg.data) = true →
      classifyIntent msg = "cycle_time") ∧
    (groupMatches ghostPatterns (lowerChars msg.data) = false →
      groupMatches routePatterns (lowerChars msg.data) = false →
      groupMatches cyclePatterns (lowerChars msg.data) = false →
      groupMatches mlPatterns (lowerChars msg.data) = true →
      classifyIntent msg = "ml_explain") ∧
    (groupMatches ghostPatterns (lowerChars msg.data) = false →
      groupMatches routePatterns (lowerChars msg.data) = false →
      groupMatches cyclePatterns (lowerChars msg.data) = false →
      groupMatches mlPatterns (lowerChars msg.data) = false →
      groupMatches analyticalPatterns (lowerChars msg.data) = true →
      classifyIntent msg = "analytical") ∧
    (groupMatches ghostPatterns (lowerChars msg.data) = false →
      groupMatches routePatterns (lowerChars msg.data) = false →
      groupMatches cyclePatterns (lowerChars msg.data) = false →
      groupMatches mlPatterns (lowerChars msg.data) = false →
      groupMatches analyticalPatterns (lowerChars msg.data) = false →
      groupMatches searchPatterns (lowerChars msg.data) = true →
      classifyIntent msg = "search") ∧
    (groupMatches ghostPatterns (lowerChars msg.data) = false →
      groupMatches routePatterns (lowerChars msg.data) = false →
      groupMatches cyclePatterns (lowerChars msg.data) = false →
      groupMatches mlPatterns (lowerChars msg.data) = false →
      groupMatches analyticalPatterns (lowerChars msg.data) = false →
      groupMatches searchPatterns (lowerChars msg.data) = false →
      groupMatches statusPatterns (lowerChars msg.data) = true →
      classifyIntent msg = "status") ∧
    (groupMatches ghostPatterns (lowerChars msg.data) = false →
      groupMatches routePatterns (lowerChars msg.data) = false →
      groupMatches cyclePatterns (lowerChars msg.data) = false →
      groupMatches mlPatterns (lowerChars msg.data) = false →
      groupMatches analyticalPatterns (lowerChars msg.data) = false →
      groupMatches searchPatterns (lowerChars msg.data) = false →
      groupMatches statusPatterns (lowerChars msg.data) = false →
      classifyIntent msg = "general") := by
  unfold classifyIntent
  refine ⟨?_, ?_, ?_, ?_, ?_, ?_, ?_, ?_, ?_⟩ <;>
    intros <;> simp_all

/-- C3 witness: "which ghost cycle is blocking traffic" matches a
ghost-cycle pattern and a route pattern, and classifies as `ghost_cycle`. -/
theorem classify_group_order_witness :
    groupMatches ghostPatterns (lowerChars "which ghost cycle is blocking traffic".data) = true ∧
    groupMatches routePatterns (lowerChars "which ghost cycle is blocking traffic".data) = true ∧
    classifyIntent "which ghost cycle is blocking traffic" = "ghost_cycle" ∧
    classifyIntent "which ghost cycle is blocking traffic" ≠ "route" :=
  ⟨by decide, by decide,
    ((classify_group_order "which ghost cycle is blocking traffic").1
      (by decide) (by decide)).1,
    ((classify_group_order "which ghost cycle is blocking traffic").1
      (by decide) (by decide)).2⟩

/-! ## Claim C10: frame effect of `process_message` on the context -/

/-- C10: `process_message` leaves the equipment filter and current-hour
fields of the conversation context unchanged in every call, and changes the
site identifier only when a (truthy) site override is supplied, to exactly
that override. -/
theorem process_message_context_frame {δ : Type} (w : HandlerWorld δ)
    (ctx : ConvContext) (message : String) (siteId : Option String) :
    (processMessage w ctx message siteId).1.equipmentId = ctx.equipmentId ∧
    (processMessage w ctx message siteId).1.currentHour = ctx.currentHour ∧
    ((processMessage w ctx message siteId).1.siteId ≠ ctx.siteId →
      siteId = some (processMessage w ctx message siteId).1.siteId) ∧
    (∀ s, siteId = some s → s ≠ "" →
      (processMessage w ctx message siteId).1 = { ctx with siteId := s }) ∧
    (siteId = none → (processMessage w ctx message siteId).1 = ctx) := by
  unfold processMessage
  rcases siteId with _ | s
  · simp
  · by_cases hs : s = "" <;> simp_all

/-- A trivial handler world used to instantiate the frame theorem. -/
def unitWorld : HandlerWorld Unit :=
  { handleAnalytical := fun _ _ => ⟨"", [], ()⟩
  , handleGhostCycle := fun _ _ => ⟨"", [], ()⟩
  , handleRouting := fun _ _ => ⟨"", [], ()⟩
  , handleSearch := fun _ _ => ⟨"", [], ()⟩
  , handleStatus := fun _ _ => ⟨"", [], ()⟩
  , handleCycleTime := fun _ _ => ⟨"", [], ()⟩
  , handleMlExplanation := fun _ _ => ⟨"", [], ()⟩
  , handleGeneral := fun _ _ => ⟨"", [], ()⟩ }

/-- C10 witness: a concrete turn with a site override mutates only the site
identifier. -/
theorem process_message_context_frame_witness :
    some "BETA" = some "BETA" ∧ "BETA" ≠ "" ∧
    (processMessage unitWorld initialContext "Show me Ghost Cycle alerts"
        (some "BETA")).1 = { initialContext with siteId := "BETA" } :=
  ⟨rfl, by decide,
    (process_message_context_frame unitWorld initialContext
        "Show me Ghost Cycle alerts" (some "BETA")).2.2.2.1 "BETA" rfl
      (by decide)⟩

/-! ## Claim C6: threshold resolution -/

/-- Helper: without a `CHOKE` row the fold never sets the choke override. -/
theorem collect_snd_of_no_choke (rows : List OptRow)
    (h : ∀ r ∈ rows, containsSeq "CHOKE".data (r.modelName.getD "").data = false) :
    ∀ init : Option ℚ × Option ℚ, (rows.foldl collectStep init).2 = init.2 := by
  induction rows with
  | nil => intro init; rfl
  | cons r rs ih =>
    intro init
    have hr := h r (List.mem_cons_self r rs)
    have hrs : ∀ x ∈ rs, containsSeq "CHOKE".data (x.modelName.getD "").data = false :=
      fun x hx => h x (List.mem_cons_of_mem r hx)
    have hstep : (collectStep init r).2 = init.2 := by
      unfold collectStep
      split_ifs with h1 h2
      · rfl
      · exact absurd hr (by simp [h2])
      · rfl
    rw [List.foldl_cons, ih hrs (collectStep init r), hstep]

/-- Helper: without a `GHOST` row the fold never sets the ghost override. -/
theorem collect_fst_of_no_ghost (rows : List OptRow)
    (h : ∀ r ∈ rows, containsSeq "GHOST".data (r.modelName.getD "").data = false) :
    ∀ init : Option ℚ × Option ℚ, (rows.foldl collectStep init).1 = init.1 := by
  induction rows with
  | nil => intro init; rfl
  | cons r rs ih =>
    intro init
    have hr := h r (List.mem_cons_self r rs)
    have hrs : ∀ x ∈ rs, containsSeq "GHOST".data (x.modelName.getD "").data = false :=
      fun x hx => h x (List.mem_cons_of_mem r hx)
    have hstep : (collectStep init r).1 = init.1 := by
      unfold collectStep
      split_ifs with h1
      · exact absurd hr (by simp [h1])
      · rfl
      · rfl
    rw [List.foldl_cons, ih hrs (collectStep init r), hstep]

/-- C6: the resolved thresholds are the hard defaults
(ghost 0.50, choke 0.60) when the optimizer is unavailable, raises, or
returns no rows; a successful optimizer result overrides only the matching
defaults — the fixture row (GHOST model, 0.42) yields ghost 0.42 with choke
still 0.60, and in general a row set without a CHOKE (resp. GHOST) model
leaves the choke (resp. ghost) threshold at its default. -/
theorem threshold_resolution :
    resolveThresholds .noService = defaultThresholds ∧
    resolveThresholds .failure = defaultThresholds ∧
    resolveThresholds (.success []) = defaultThresholds ∧
    defaultThresholds.ghostCycleProbability = 0.50 ∧
    defaultThresholds.chokePointProbability = 0.60 ∧
    (resolveThresholds
        (.success [{ modelName := some "GHOST_CYCLE_DETECTOR"
                   , optimalThreshold := some 0.42 }])).ghostCycleProbability
      = 0.42 ∧
    (resolveThresholds
        (.success [{ modelName := some "GHOST_CYCLE_DETECTOR"
                   , optimalThreshold := some 0.42 }])).chokePointProbability
      = 0.60 ∧
    (∀ rows : List OptRow,
      (∀ r ∈ rows, containsSeq "CHOKE".data (r.modelName.getD "").data = false) →
      (resolveThresholds (.success rows)).chokePointProbability
        = defaultThresholds.chokePointProbability) ∧
    (∀ rows : List OptRow,
      (∀ r ∈ rows, containsSeq "GHOST".data (r.modelName.getD "").data = false) →
      (resolveThresholds (.success rows)).ghostCycleProbability
        = defaultThresholds.ghostCycleProbability) := by
  refine ⟨rfl, rfl, rfl, rfl, rfl, rfl, rfl, ?_, ?_⟩
  · intro rows h
    have h2 : (collectOverrides rows).2 = none :=
      collect_snd_of_no_choke rows h (none, none)
    simp only [resolveThresholds]
    split_ifs with hs
    · simp [h2]
    · rfl
  · intro rows h
    have h1 : (collectOverrides rows).1 = none :=
      collect_fst_of_no_ghost rows h (none, none)
    simp only [resolveThresholds]
    split_ifs with hs
    · simp [h1]
    · rfl

/-- C6 witness: the fixture row set contains no CHOKE model, so the choke
threshold stays at its default through the general override property. -/
theorem threshold_resolution_witness :
    (∀ r ∈ [({ modelName := some "GHOST_CYCLE_DETECTOR"
             , optimalThreshold := some 0.42 } : OptRow)],
      containsSeq "CHOKE".data (r.modelName.getD "").data = false) ∧
    (resolveThresholds
        (.success [{ modelName := some "GHOST_CYCLE_DETECTOR"
                   , optimalThreshold := some 0.42 }])).chokePointProbability
      = defaultThresholds.chokePointProbability :=
  ⟨by decide, threshold_resolution.2.2.2.2.2.2.2.1 _ (by decide)⟩

/-! ## Claim C7: one reconnect-and-retry on the fallback connector path -/

/-- C7: a token-expired failure on the fallback connector path triggers
exactly one reconnect-and-retry; a second failure (or a failed reconnect)
yields the empty result, and no call ever executes the query more than
twice or propagates the error. -/
theorem snowpark_single_retry {ρ : Type} (hasConn : Bool)
    (attempt : ℕ → QueryOutcome ρ) (reconnectOk : Bool) :
    (executeQuerySnowpark hasConn attempt reconnectOk).2 ≤ 2 ∧
    (∀ msg rows, hasConn = true → attempt 0 = .raised msg →
      isTokenExpiration msg = true → reconnectOk = true →
      attempt 1 = .ok rows →
      executeQuerySnowpark hasConn attempt reconnectOk = (rows, 2)) ∧
    (∀ msg msg2, hasConn = true → attempt 0 = .raised msg →
      isTokenExpiration msg = true → reconnectOk = true →
      attempt 1 = .raised msg2 →
      executeQuerySnowpark hasConn attempt reconnectOk = ([], 2)) ∧
    (∀ msg, hasConn = true → attempt 0 = .raised msg →
      (isTokenExpiration msg = false ∨ reconnectOk = false) →
      executeQuerySnowpark hasConn attempt reconnectOk = ([], 1)) := by
  refine ⟨?_, ?_, ?_, ?_⟩
  · cases hasConn with
    | false => simp [executeQuerySnowpark]
    | true =>
      cases h0 : attempt 0 with
      | ok rows => simp [executeQuerySnowpark, h0]
      | raised msg =>
        simp only [executeQuerySnowpark, h0, Bool.not_true, Bool.false_eq_true,
          if_false]
        split_ifs
        · cases attempt 1 <;> simp
        · simp
  · intro msg rows hc h0 ht hr h1
    subst hc hr
    simp [executeQuerySnowpark, h0, h1, ht]
  · intro msg msg2 hc h0 ht hr h1
    subst hc hr
    simp [executeQuerySnowpark, h0, h1, ht]
  · intro msg hc h0 hcase
    subst hc
    rcases hcase with ht | hr
    · simp [executeQuerySnowpark, h0, ht]
    · subst hr
      simp [executeQuerySnowpark, h0]

/-- C7 witness: a concrete token-expiration failure followed by a successful
retry returns the retried rows after exactly two query executions. -/
theorem snowpark_single_retry_witness :
    (fun n => if n = 0 then QueryOutcome.raised "JWT token is expired"
              else QueryOutcome.ok ["ROW1"]) 0
        = QueryOutcome.raised (ρ := String) "JWT token is expired" ∧
    isTokenExpiration "JWT token is expired" = true ∧
    executeQuerySnowpark true
        (fun n => if n = 0 then QueryOutcome.raised "JWT token is expired"
                  else QueryOutcome.ok ["ROW1"]) true
      = (["ROW1"], 2) :=
  ⟨rfl, by decide,
    (snowpark_single_retry true _ true).2.1 "JWT token is expired" ["ROW1"]
      rfl rfl (by decide) rfl rfl⟩

/-! ## Claim C1: terminal event of `run_agent_stream` -/

/-- C1 counterexample: on a non-success initial status (HTTP 500, body
"oops") the generator yields exactly the single `error` event and returns —
the yielded sequence does not terminate with a `done` event. -/
theorem stream_error_no_trailing_done :
    runAgentStream
        { setupError := none, statusCode := 500, errorBody := "oops"
        , chunks := [], midStreamError := none }
      = [.error "Agent API error: 500" (some "oops")] ∧
    ¬ ((runAgentStream
        { setupError := none, statusCode := 500, errorBody := "oops"
        , chunks := [], midStreamError := none }).getLast? = some .done) := by
  refine ⟨rfl, ?_⟩
  intro h
  rw [show runAgentStream
      { setupError := none, statusCode := 500, errorBody := "oops"
      , chunks := [], midStreamError := none }
      = [.error "Agent API error: 500" (some "oops")] from rfl] at h
  simp only [List.getLast?_singleton, Option.some.injEq] at h
  cases h

/-- C1 amended: the yielded sequence always ends in exactly one terminal
event, but which one depends on the scenario: a trailing `done` after a
successful call and fully consumed stream; the single `error` event (with
no trailing `done`) when the initial response status is non-success, when
an exception interrupts stream consumption, or when setup fails before the
request is sent. -/
theorem stream_terminal_event (s : StreamScenario) :
    (s.setupError = none → s.statusCode = 200 → s.midStreamError = none →
      (runAgentStream s).getLast? = some .done) ∧
    (s.setupError = none → s.statusCode ≠ 200 →
      runAgentStream s
        = [.error ("Agent API error: " ++ toString s.statusCode)
            (some s.errorBody)]) ∧
    (∀ msg, s.setupError = none → s.statusCode = 200 →
      s.midStreamError = some msg →
      (runAgentStream s).getLast? = some (.error msg none)) ∧
    (∀ msg, s.setupError = some msg →
      runAgentStream s = [.error msg none]) := by
  refine ⟨?_, ?_, ?_, ?_⟩
  · intro hsetup hstatus hmid
    simp [runAgentStream, hsetup, hstatus, hmid, List.getLast?_concat]
  · intro hsetup hstatus
    simp [runAgentStream, hsetup, hstatus]
  · intro msg hsetup hstatus hmid
    simp [runAgentStream, hsetup, hstatus, hmid, List.getLast?_concat]
  · intro msg hsetup
    simp [runAgentStream, hsetup]

/-- C1 witness: a concrete successful stream (one text frame, one done
sentinel, stream fully consumed) ends with a trailing `done`. -/
theorem stream_terminal_event_witness :
    (runAgentStream
        { setupError := none, statusCode := 200, errorBody := ""
        , chunks := ["event: response.output_text.delta\ndata: \x7b\"text\": \"hi\"\x7d\n\n"]
        , midStreamError := none }).getLast? = some .done :=
  (stream_terminal_event
      { setupError := none, statusCode := 200, errorBody := ""
      , chunks := ["event: response.output_text.delta\ndata: \x7b\"text\": \"hi\"\x7d\n\n"]
      , midStreamError := none }).1 rfl rfl rfl

/-! ## Claim C8: shape of `_parse_sse_event` results -/

/-- C8 counterexample: a frame whose event type is unrecognized but whose
data payload decodes to a non-dictionary JSON value (here the string
"hello") does not yield `null`: the non-dict branch runs before the tag
dispatch and yields a `text` event. -/
theorem sse_unknown_type_not_null :
    parseSSEEvent "event: response.foobar\ndata: \"hello\""
      = some (.text (.str "hello")) ∧
    parseSSEEvent "event: response.foobar\ndata: \"hello\"" ≠ none := by
  refine ⟨rfl, ?_⟩
  intro h
  rw [show parseSSEEvent "event: response.foobar\ndata: \"hello\""
      = some (.text (.str "hello")) from rfl] at h
  cases h

/-- C8 amended: a well-formed output-text-delta frame carrying text "abc"
yields exactly one `text` event with content "abc"; a done-sentinel data
payload yields exactly one `done` event; and a frame with an unrecognized
event type yields `null` provided its decoded data payload is a dictionary
(which includes every payload that fails JSON decoding, via the `raw`
wrapper) — a non-dictionary payload instead yields a `text` event carrying
its rendering. -/
theorem sse_parse_shapes :
    parseSSEEvent "event: response.output_text.delta\ndata: \x7b\"text\": \"abc\"\x7d"
      = some (.text (.str "abc")) ∧
    parseSSEEvent "data: [DONE]" = some .done ∧
    (∀ (eventType : Option String) (kvs : List (String × Json)),
      eventType ∉
        ([some "response.output_text.delta", some "response.text.delta",
          some "response.thinking.delta", some "response.status",
          some "response.tool_result.status", some "response.tool_result",
          some "response.chart", some "response.done",
          some "response.content.delta"] : List (Option String)) →
      dispatchSSE eventType (.obj kvs) = none) ∧
    (∀ (eventType : Option String) (d : Json), d.isObj = false →
      dispatchSSE eventType d = some (.text (.str (pyStr d)))) := by
  refine ⟨rfl, rfl, ?_, ?_⟩
  · intro eventType kvs h
    simp only [List.mem_cons, List.not_mem_nil, or_false, not_or] at h
    obtain ⟨h1, h2, h3, h4, h5, h6, h7, h8, h9⟩ := h
    simp [dispatchSSE, Json.isObj, h1, h2, h3, h4, h5, h6, h7, h8, h9]
  · intro eventType d hd
    simp [dispatchSSE, hd]

/-- C8 witness: the unrecognized tag `response.foobar` with a dictionary
payload yields `null`. -/
theorem sse_parse_shapes_witness :
    (some "response.foobar" : Option String) ∉
      ([some "response.output_text.delta", some "response.text.delta",
        some "response.thinking.delta", some "response.status",
        some "response.tool_result.status", some "response.tool_result",
        some "response.chart", some "response.done",
        some "response.content.delta"] : List (Option String)) ∧
    dispatchSSE (some "response.foobar") (.obj [("k", .str "v")]) = none :=
  ⟨by decide,
    sse_parse_shapes.2.2.1 (some "response.foobar") [("k", .str "v")]
      (by decide)⟩

/-! ## Watchdog helper lemmas -/

/-- Every choke-branch alert has kind `CHOKE_POINT`. -/
theorem chokeBranch_kind (t : ThresholdSet) (c : List ChokePred)
    (z : List ZoneRecord) :
    ∀ a ∈ (chokeBranch t c z).2, a.kind = "CHOKE_POINT" := by
  intro a ha
  by_cases hc : c.isEmpty <;> simp [chokeBranch, hc] at ha <;>
    rcases ha with ⟨x, _, rfl⟩ <;> rfl

/-- The alert list of a pass decomposes into the two branch lists. -/
theorem watchdog_alerts_decomp (o : OptimizerOutcome) (g : List GhostPred)
    (c : List ChokePred) (e : List EquipRecord) (z : List ZoneRecord) :
    (watchdogProcess o g c e z).alerts
      = (ghostBranch (resolveThresholds o) g e).2
        ++ (chokeBranch (resolveThresholds o) c z).2 := rfl

/-- Every alert of a pass comes from one of the four construction sites:
a surviving ghost ML prediction, a qualifying telemetry record, a surviving
choke ML prediction, or a qualifying zone record. -/
theorem watchdog_alert_cases (o : OptimizerOutcome) (g : List GhostPred)
    (c : List ChokePred) (e : List EquipRecord) (z : List ZoneRecord)
    (a : Alert) (ha : a ∈ (watchdogProcess o g c e z).alerts) :
    (∃ p ∈ ghostSurvivors (resolveThresholds o) g,
      a = mkGhostMlAlert (resolveThresholds o) p) ∨
    (∃ q ∈ e.filter isGhostCycleRuleBased, a = mkGhostRuleAlert q) ∨
    (∃ p ∈ chokeSurvivors (resolveThresholds o) c,
      a = mkChokeMlAlert (resolveThresholds o) p) ∨
    (∃ y ∈ z.filter isChokePointRuleBased, a = mkChokeRuleAlert y) := by
  rw [watchdog_alerts_decomp, List.mem_append] at ha
  rcases ha with hg | hc
  · by_cases hge : g.isEmpty
    · simp [ghostBranch, hge] at hg
      rcases hg with ⟨x, hx, rfl⟩
      exact Or.inr (Or.inl ⟨x, List.mem_filter.2 ⟨hx.1, hx.2⟩, rfl⟩)
    · simp [ghostBranch, hge] at hg
      rcases hg with ⟨x, hx, rfl⟩
      exact Or.inl ⟨x, hx, rfl⟩
  · by_cases hce : c.isEmpty
    · simp [chokeBranch, hce] at hc
      rcases hc with ⟨x, hx, rfl⟩
      exact Or.inr (Or.inr (Or.inr ⟨x, List.mem_filter.2 ⟨hx.1, hx.2⟩, rfl⟩))
    · simp [chokeBranch, hce] at hc
      rcases hc with ⟨x, hx, rfl⟩
      exact Or.inr (Or.inr (Or.inl ⟨x, hx, rfl⟩))

/-- With a non-empty primary feed, the ghost-cycle alerts of a pass are
exactly the ML alerts of the surviving predictions. -/
theorem watchdog_ghost_filter (o : OptimizerOutcome) (g : List GhostPred)
    (c : List ChokePred) (e : List EquipRecord) (z : List ZoneRecord)
    (h : g.isEmpty = false) :
    (watchdogProcess o g c e z).alerts.filter
        (fun a => a.kind = "GHOST_CYCLE")
      = (ghostSurvivors (resolveThresholds o) g).map
          (mkGhostMlAlert (resolveThresholds o)) := by
  have halerts : (watchdogProcess o g c e z).alerts
      = ((ghostSurvivors (resolveThresholds o) g).map
          (mkGhostMlAlert (resolveThresholds o)))
        ++ (chokeBranch (resolveThresholds o) c z).2 := by
    rw [watchdog_alerts_decomp]
    simp [ghostBranch, h]
  rw [halerts, List.filter_append]
  have h1 : ((ghostSurvivors (resolveThresholds o) g).map
        (mkGhostMlAlert (resolveThresholds o))).filter
          (fun a => a.kind = "GHOST_CYCLE")
      = (ghostSurvivors (resolveThresholds o) g).map
          (mkGhostMlAlert (resolveThresholds o)) := by
    apply List.filter_eq_self.2
    intro a ha
    rcases List.mem_map.1 ha with ⟨p, _, rfl⟩
    simp [mkGhostMlAlert]
  have h2 : ((chokeBranch (resolveThresholds o) c z).2).filter
        (fun a => a.kind = "GHOST_CYCLE") = [] := by
    apply List.filter_eq_nil_iff.2
    intro a ha
    have := chokeBranch_kind (resolveThresholds o) c z a ha
    simp [this]
  rw [h1, h2, List.append_nil]

/-! ## Claim C2: non-empty primary feed excludes the fallback -/

/-- C2: with a non-empty primary ghost-cycle feed the pass never consults
the rule-based fallback — the whole result is independent of the telemetry
records — and if every feed record is below the resolved threshold the pass
yields zero ghost-cycle alerts and zero ghost-cycle records, not a fallback
scan. -/
theorem ghost_primary_excludes_fallback (o : OptimizerOutcome)
    (g : List GhostPred) (c : List ChokePred) (e e' : List EquipRecord)
    (z : List ZoneRecord) (h : g ≠ []) :
    watchdogProcess o g c e z = watchdogProcess o g c e' z ∧
    ((∀ p ∈ g, p.ghostProbability.getD 0
        < (resolveThresholds o).ghostCycleProbability) →
      (watchdogProcess o g c e z).alerts.filter
          (fun a => a.kind = "GHOST_CYCLE") = [] ∧
      (watchdogProcess o g c e z).ghostCycles = []) := by
  have hne : g.isEmpty = false := by
    cases g with
    | nil => exact absurd rfl h
    | cons p ps => rfl
  constructor
  · simp [watchdogProcess, ghostBranch, hne]
  · intro hlt
    have hsurv : ghostSurvivors (resolveThresholds o) g = [] := by
      apply List.filter_eq_nil_iff.2
      intro p hp
      simp only [decide_eq_true_eq, not_le, ge_iff_le]
      exact hlt p hp
    refine ⟨?_, ?_⟩
    · rw [watchdog_ghost_filter o g c e z hne, hsurv, List.map_nil]
    · show (ghostBranch (resolveThresholds o) g e).1 = []
      simp [ghostBranch, hne, hsurv]

/-- C2 witness: a one-record feed below the default threshold yields no
ghost-cycle alerts and ignores a telemetry record that would qualify for
the fallback rule. -/
theorem ghost_primary_excludes_fallback_witness :
    (([{ ghostProbability := some 0.3 }] : List GhostPred) ≠ []) ∧
    (∀ p ∈ ([{ ghostProbability := some 0.3 }] : List GhostPred),
      p.ghostProbability.getD 0
        < (resolveThresholds .failure).ghostCycleProbability) ∧
    (watchdogProcess .failure [{ ghostProbability := some 0.3 }] []
        [{ speedMph := some 3.0, engineLoadPct := some 20 }] []).alerts.filter
        (fun a => a.kind = "GHOST_CYCLE") = [] ∧
    (watchdogProcess .failure [{ ghostProbability := some 0.3 }] []
        [{ speedMph := some 3.0, engineLoadPct := some 20 }] []).ghostCycles
      = [] := by
  have hmem : ∀ p ∈ ([{ ghostProbability := some 0.3 }] : List GhostPred),
      p.ghostProbability.getD 0
        < (resolveThresholds .failure).ghostCycleProbability := by
    intro p hp
    rcases List.mem_singleton.1 hp with rfl
    show (0.3 : ℚ) < defaultThresholds.ghostCycleProbability
    norm_num [defaultThresholds]
  have hmain := (ghost_primary_excludes_fallback .failure
    [{ ghostProbability := some 0.3 }] []
    [{ speedMph := some 3.0, engineLoadPct := some 20 }] [] []
    (List.cons_ne_nil _ _)).2 hmem
  exact ⟨List.cons_ne_nil _ _, hmem, hmain.1, hmain.2⟩

/-! ## Claim C4: primary-path ghost alerts -/

/-- C4: with a non-empty primary feed, a feed record produces an alert
exactly when its probability clears the resolved ghost threshold (the
ghost-cycle alerts are the image of the surviving records); each such alert
has severity WARNING below probability 0.7 and CRITICAL at or above it,
confidence equal to the probability, and the probabilistic-model source; in
particular the end-to-end fixture — intent of "Show me Ghost Cycle alerts"
plus a single record at probability 0.81 — yields one CRITICAL alert with
confidence 0.81. -/
theorem ghost_primary_alert_semantics (o : OptimizerOutcome)
    (g : List GhostPred) (c : List ChokePred) (e : List EquipRecord)
    (z : List ZoneRecord) (h : g ≠ []) :
    ((watchdogProcess o g c e z).alerts.filter
        (fun a => a.kind = "GHOST_CYCLE")
      = (g.filter (fun p => p.ghostProbability.getD 0
          ≥ (resolveThresholds o).ghostCycleProbability)).map
            (mkGhostMlAlert (resolveThresholds o))) ∧
    (∀ p : GhostPred,
      (mkGhostMlAlert (resolveThresholds o) p).severity
          = (if p.ghostProbability.getD 0 < 0.7 then "WARNING" else "CRITICAL") ∧
      (mkGhostMlAlert (resolveThresholds o) p).confidence
          = some (p.ghostProbability.getD 0) ∧
      (mkGhostMlAlert (resolveThresholds o) p).model = "GHOST_CYCLE_DETECTOR" ∧
      (mkGhostMlAlert (resolveThresholds o) p).kind = "GHOST_CYCLE") ∧
    classifyIntent "Show me Ghost Cycle alerts" = "ghost_cycle" ∧
    (watchdogProcess .failure
        [{ equipmentId := some "EQP-001", ghostProbability := some 0.81 }]
        [] [] []).alerts.map (fun a => (a.severity, a.confidence, a.model))
      = [("CRITICAL", some (0.81 : ℚ), "GHOST_CYCLE_DETECTOR")] := by
  have hne : g.isEmpty = false := by
    cases g with
    | nil => exact absurd rfl h
    | cons p ps => rfl
  refine ⟨?_, ?_, by decide, ?_⟩
  · exact watchdog_ghost_filter o g c e z hne
  · intro p
    exact ⟨rfl, rfl, rfl, rfl⟩
  · have hgate : ((0.50 : ℚ) ≤ (0.81 : ℚ)) := by norm_num
    have hlt : (((0.81 : ℚ) < 0.7) = False) := by norm_num
    have halerts : (watchdogProcess .failure
        [{ equipmentId := some "EQP-001", ghostProbability := some 0.81 }]
        [] [] []).alerts
        = [mkGhostMlAlert defaultThresholds
            { equipmentId := some "EQP-001", ghostProbability := some 0.81 }] := by
      rw [watchdog_alerts_decomp]
      simp [ghostBranch, chokeBranch, ghostSurvivors, resolveThresholds,
        defaultThresholds, collectOverrides, hgate]
    rw [halerts]
    simp [mkGhostMlAlert, hlt]

/-- C4 witness: the filter/map characterization instantiated at the
single-record 0.81 fixture. -/
theorem ghost_primary_alert_semantics_witness :
    (([{ equipmentId := some "EQP-001", ghostProbability := some 0.81 }]
        : List GhostPred) ≠ []) ∧
    (watchdogProcess .failure
        [{ equipmentId := some "EQP-001", ghostProbability := some 0.81 }]
        [] [] []).alerts.filter (fun a => a.kind = "GHOST_CYCLE")
      = (([{ equipmentId := some "EQP-001", ghostProbability := some 0.81 }]
          : List GhostPred).filter
            (fun p => p.ghostProbability.getD 0
              ≥ (resolveThresholds .failure).ghostCycleProbability)).map
          (mkGhostMlAlert (resolveThresholds .failure)) :=
  ⟨List.cons_ne_nil _ _,
    (ghost_primary_alert_semantics .failure
      [{ equipmentId := some "EQP-001", ghostProbability := some 0.81 }]
      [] [] [] (List.cons_ne_nil _ _)).1⟩

/-! ## Claim C5: rule-based fallback alert and the confidence invariant -/

/-- C5: in every pass an alert's confidence is present exactly when its
source is one of the two probabilistic models (never for the rule-based
fallback); and the fixture pass — empty primary feed, one telemetry record
with speed 3.0 and engine load 20 — produces exactly one ghost-cycle alert
with confidence absent, severity WARNING and the rule-based source. -/
theorem rule_fallback_confidence (o : OptimizerOutcome) (g : List GhostPred)
    (c : List ChokePred) (e : List EquipRecord) (z : List ZoneRecord) :
    (∀ a ∈ (watchdogProcess o g c e z).alerts,
      a.confidence.isSome = true ↔
        (a.model = "GHOST_CYCLE_DETECTOR" ∨ a.model = "CHOKE_POINT_PREDICTOR")) ∧
    (watchdogProcess .failure [] []
        [{ equipmentId := some "EQP-001", speedMph := some 3.0
         , engineLoadPct := some 20 }] []).alerts.map
        (fun a => (a.kind, a.severity, a.confidence, a.model))
      = [("GHOST_CYCLE", "WARNING", (none : Option ℚ), "RULE_BASED_FALLBACK")] := by
  constructor
  · intro a ha
    rcases watchdog_alert_cases o g c e z a ha with
      ⟨p, _, rfl⟩ | ⟨q, _, rfl⟩ | ⟨p, _, rfl⟩ | ⟨y, _, rfl⟩
    · simp [mkGhostMlAlert]
    · simp [mkGhostRuleAlert]
    · simp [mkChokeMlAlert]
    · simp [mkChokeRuleAlert]
  · have hrule : isGhostCycleRuleBased
        { equipmentId := some "EQP-001", speedMph := some 3.0
        , engineLoadPct := some 20 } = true := by
      simp only [isGhostCycleRuleBased, defaultThresholds, Option.getD_some,
        Bool.and_eq_true, decide_eq_true_eq]
      norm_num
    have halerts : (watchdogProcess .failure [] []
        [{ equipmentId := some "EQP-001", speedMph := some 3.0
         , engineLoadPct := some 20 }] []).alerts
        = [mkGhostRuleAlert
            { equipmentId := some "EQP-001", speedMph := some 3.0
            , engineLoadPct := some 20 }] := by
      rw [watchdog_alerts_decomp]
      simp [ghostBranch, chokeBranch, hrule]
    rw [halerts]
    simp [mkGhostRuleAlert]

/-- C5 witness: the confidence invariant instantiated at the concrete
rule-based alert of the fixture pass. -/
theorem rule_fallback_confidence_witness :
    mkGhostRuleAlert
        { equipmentId := some "EQP-001", speedMph := some 3.0
        , engineLoadPct := some 20 }
      ∈ (watchdogProcess .failure [] []
          [{ equipmentId := some "EQP-001", speedMph := some 3.0
           , engineLoadPct := some 20 }] []).alerts ∧
    ((mkGhostRuleAlert
        { equipmentId := some "EQP-001", speedMph := some 3.0
        , engineLoadPct := some 20 }).confidence.isSome = true ↔
      ((mkGhostRuleAlert
          { equipmentId := some "EQP-001", speedMph := some 3.0
          , engineLoadPct := some 20 }).model = "GHOST_CYCLE_DETECTOR" ∨
        (mkGhostRuleAlert
          { equipmentId := some "EQP-001", speedMph := some 3.0
          , engineLoadPct := some 20 }).model = "CHOKE_POINT_PREDICTOR")) := by
  have hrule : isGhostCycleRuleBased
      { equipmentId := some "EQP-001", speedMph := some 3.0
      , engineLoadPct := some 20 } = true := by
    simp only [isGhostCycleRuleBased, defaultThresholds, Option.getD_some,
      Bool.and_eq_true, decide_eq_true_eq]
    norm_num
  have hmem : mkGhostRuleAlert
      { equipmentId := some "EQP-001", speedMph := some 3.0
      , engineLoadPct := some 20 }
      ∈ (watchdogProcess .failure [] []
          [{ equipmentId := some "EQP-001", speedMph := some 3.0
           , engineLoadPct := some 20 }] []).alerts := by
    rw [watchdog_alerts_decomp]
    simp [ghostBranch, chokeBranch, hrule]
  exact ⟨hmem,
    (rule_fallback_confidence .failure [] []
      [{ equipmentId := some "EQP-001", speedMph := some 3.0
       , engineLoadPct := some 20 }] []).1 _ hmem⟩

/-! ## Claim C9: severity domain of emitted alerts -/

/-- C9 counterexample: a choke-point prediction surviving the threshold but
carrying no `PREDICTED_SEVERITY` produces an alert with severity MEDIUM,
which is outside the claimed closed set. -/
theorem choke_ml_severity_medium :
    (watchdogProcess .failure [] [{ chokeProbability := some 0.9 }] []
        []).alerts.map (fun a => a.severity) = ["MEDIUM"] ∧
    "MEDIUM" ∉ (["WARNING", "ALERT", "CRITICAL"] : List String) := by
  refine ⟨?_, by decide⟩
  have hgate : ((0.60 : ℚ) ≤ (0.9 : ℚ)) := by norm_num
  have halerts : (watchdogProcess .failure [] [{ chokeProbability := some 0.9 }]
      [] []).alerts
      = [mkChokeMlAlert defaultThresholds { chokeProbability := some 0.9 }] := by
    rw [watchdog_alerts_decomp]
    simp [ghostBranch, chokeBranch, chokeSurvivors, resolveThresholds,
      defaultThresholds, collectOverrides, hgate]
  rw [halerts]
  simp [mkChokeMlAlert]

/-- C9 amended: every ghost-cycle alert of a pass (primary or fallback) has
severity in \{WARNING, ALERT, CRITICAL\}; every rule-based choke-point alert
has severity ALERT, in that set; and every primary-path choke-point alert is
built from a feed record of the choke feed and carries that record's own
predicted severity, which defaults to MEDIUM and is not constrained to the
set. -/
theorem alert_severity_domain (o : OptimizerOutcome) (g : List GhostPred)
    (c : List ChokePred) (e : List EquipRecord) (z : List ZoneRecord) :
    ∀ a ∈ (watchdogProcess o g c e z).alerts,
      (a.kind = "GHOST_CYCLE" →
        a.severity ∈ (["WARNING", "ALERT", "CRITICAL"] : List String)) ∧
      (a.kind = "CHOKE_POINT" → a.model = "RULE_BASED_FALLBACK" →
        a.severity = "ALERT") ∧
      (a.kind = "CHOKE_POINT" → a.model = "CHOKE_POINT_PREDICTOR" →
        ∃ p ∈ c, a = mkChokeMlAlert (resolveThresholds o) p ∧
          a.severity = p.predictedSeverity.getD "MEDIUM") := by
  intro a ha
  rcases watchdog_alert_cases o g c e z a ha with
    ⟨p, _, rfl⟩ | ⟨q, _, rfl⟩ | ⟨p, hp, rfl⟩ | ⟨y, _, rfl⟩
  · refine ⟨?_, ?_, ?_⟩
    · intro _
      by_cases hlt : p.ghostProbability.getD 0 < 0.7 <;>
        simp [mkGhostMlAlert, hlt]
    · intro hk
      exact absurd hk (by simp [mkGhostMlAlert])
    · intro hk
      exact absurd hk (by simp [mkGhostMlAlert])
  · refine ⟨?_, ?_, ?_⟩
    · intro _
      simp [mkGhostRuleAlert]
    · intro hk
      exact absurd hk (by simp [mkGhostRuleAlert])
    · intro hk
      exact absurd hk (by simp [mkGhostRuleAlert])
  · refine ⟨?_, ?_, ?_⟩
    · intro hk
      exact absurd hk (by simp [mkChokeMlAlert])
    · intro _ hm
      exact absurd hm (by simp [mkChokeMlAlert])
    · intro _ _
      exact ⟨p, List.mem_of_mem_filter hp, rfl, rfl⟩
  · refine ⟨?_, ?_, ?_⟩
    · intro hk
      exact absurd hk (by simp [mkChokeRuleAlert])
    · intro _ _
      rfl
    · intro _ hm
      exact absurd hm (by simp [mkChokeRuleAlert])

/-- C9 witness: the severity-domain property instantiated at the
MEDIUM-severity primary-path choke alert of the counterexample pass, which
carries its own feed record's (defaulted) predicted severity. -/
theorem alert_severity_domain_witness :
    mkChokeMlAlert defaultThresholds { chokeProbability := some 0.9 }
      ∈ (watchdogProcess .failure [] [{ chokeProbability := some 0.9 }] []
          []).alerts ∧
    (mkChokeMlAlert defaultThresholds
        { chokeProbability := some 0.9 }).kind = "CHOKE_POINT" ∧
    (mkChokeMlAlert defaultThresholds
        { chokeProbability := some 0.9 }).model = "CHOKE_POINT_PREDICTOR" ∧
    ∃ p ∈ ([{ chokeProbability := some 0.9 }] : List ChokePred),
      mkChokeMlAlert defaultThresholds { chokeProbability := some 0.9 }
          = mkChokeMlAlert (resolveThresholds .failure) p ∧
      (mkChokeMlAlert defaultThresholds
          { chokeProbability := some 0.9 }).severity
        = p.predictedSeverity.getD "MEDIUM" := by
  have hgate : ((0.60 : ℚ) ≤ (0.9 : ℚ)) := by norm_num
  have hmem : mkChokeMlAlert defaultThresholds { chokeProbability := some 0.9 }
      ∈ (watchdogProcess .failure [] [{ chokeProbability := some 0.9 }] []
          []).alerts := by
    rw [watchdog_alerts_decomp]
    simp [ghostBranch, chokeBranch, chokeSurvivors, resolveThresholds,
      defaultThresholds, collectOverrides, hgate]
  refine ⟨hmem, rfl, rfl, ?_⟩
  exact (alert_severity_domain .failure [] [{ chokeProbability := some 0.9 }]
    [] [] _ hmem).2.2 rfl rfl

end Terra
